import Mathlib

/-!
Shallow embedding of the share-resolution flow of the social-sharing
repository (file exporting share, shareImageToInstagram,
shareImageToInstagramDirect, prepareShareImageFile).

The browser collaborators (fetch, Clipboard, ClipboardItem, Web Share,
window.location.assign, window.open) are modelled as an oracle structure
Env whose fields record, for one share attempt, whether each capability is
present and what outcome each call produces; a thrown JavaScript exception
is the explicit outcome Except.error. Every embedded function also returns
the list of collaborator calls it performed, so that claims of the form
"no fetch is attempted" are statable.
-/

namespace SocialSharing

/-- A JavaScript value as observed by the error-classification code: an
object with a string name property, an object without one (or with a
non-string name), or a non-object (primitive, null, undefined). Only the
name property is inspected by the code, via isAbortError. -/
inductive JsValue where
  | objWithName (name : String)
  | objNoStringName
  | primitive
deriving DecidableEq

/-- Which fetch path supplied the bytes (the __fetchedVia annotation). -/
inductive FetchedVia where
  | direct
  | next_image_optimizer
deriving DecidableEq

/-- The method field of a successful ShareResult. -/
inductive Method where
  | web_share
  | deep_link
  | deep_link_clipboard
deriving DecidableEq

/-- The clipboard outcome recorded in ShareResult details. -/
inductive ClipboardStatus where
  | copied
  | failed
  | not_supported
  | skipped
deriving DecidableEq

/-- The reason field of a failed ShareResult. -/
inductive Reason where
  | not_in_browser
  | not_supported
  | clipboard_not_supported
  | fetch_failed
  | user_cancelled
  | unknown
deriving DecidableEq

/-- The details object of a successful ShareResult. Optional fields of the
TypeScript object type are Option; a field holding undefined is none. -/
structure Details where
  clipboard : ClipboardStatus
  deepLinkOpened : Option Bool
  fetchedVia : Option FetchedVia
deriving DecidableEq

/-- ShareResult: tagged union of success and failure. The provider field
is carried verbatim (always the string instagram in this code). -/
inductive ShareResult where
  | success (provider : String) (method : Method) (details : Option Details)
  | failure (provider : String) (reason : Reason) (error : Option JsValue)
deriving DecidableEq

/-- A Blob: a MIME type string plus bytes. -/
structure Blob where
  type : String
  data : List Nat
deriving DecidableEq

/-- A File: name, MIME type, modification time, bytes, and the optional
__fetchedVia annotation of PreparedFile (none on a plain File). -/
structure File where
  name : String
  type : String
  lastModified : Nat
  data : List Nat
  fetchedVia : Option FetchedVia := none
deriving DecidableEq

/-- Outcome of one call to fetch(url): either the call throws, or it
yields a Response with an ok flag whose blob() call in turn either throws
or yields a Blob. -/
inductive FetchSpec where
  | throws (e : JsValue)
  | resp (ok : Bool) (blob : Except JsValue Blob)

/-- Behaviour of navigator.canShare: absent from navigator; present but
null or undefined (the optional-chained call short-circuits, no call is
made); a call that throws; or a call returning a boolean. A non-boolean
return value behaves like returns true, since only strict equality with
false is tested. -/
inductive CanShareSpec where
  | absent
  | undef
  | throws (e : JsValue)
  | returns (v : Bool)

/-- One observable collaborator call made during a share attempt. -/
inductive Event where
  | fetchCall (url : String)
  | clipboardItemNew
  | clipboardWriteCall
  | canShareCall
  | nativeShareCall
  | assignCall (url : String)
  | openCall (url : String)
deriving DecidableEq

/-- The browser environment for one share attempt: capability presence
flags and the outcome of each collaborator call. Modelling outcomes as
fields makes them arbitrary but fixed within the attempt. -/
structure Env where
  hasWindow : Bool
  hasNavigator : Bool
  origin : String
  now : Nat
  shareInNavigator : Bool
  shareIsFunction : Bool
  canShare : CanShareSpec
  nativeShare : Except JsValue Unit
  fetch : String → FetchSpec
  clipboardPresent : Bool
  clipboardWriteIsFunction : Bool
  clipboardItemDefined : Bool
  clipboardItemNew : Except JsValue Unit
  clipboardWrite : Except JsValue Unit
  assign : String → Except JsValue Unit
  openWin : String → Except JsValue Unit

/-- True when an Except value records a thrown exception. -/
def exceptThrew : Except JsValue Unit → Bool
  | Except.error _ => true
  | Except.ok _ => false

/-- Percent-encoding of one UTF-8 byte under the
application/x-www-form-urlencoded serializer used by URLSearchParams:
ASCII alphanumerics and * - . _ pass through, space becomes +, every
other byte becomes percent and two uppercase hex digits. -/
def formUrlEncodeByte (n : Nat) : String :=
  let hexDigit : Nat → Char := fun d =>
    if d < 10 then Char.ofNat (48 + d) else Char.ofNat (55 + d)
  if n = 32 then "+"
  else if (48 ≤ n ∧ n ≤ 57) ∨ (65 ≤ n ∧ n ≤ 90) ∨ (97 ≤ n ∧ n ≤ 122)
      ∨ n = 42 ∨ n = 45 ∨ n = 46 ∨ n = 95 then
    String.singleton (Char.ofNat n)
  else
    "%" ++ String.singleton (hexDigit (n / 16)) ++ String.singleton (hexDigit (n % 16))

/-- Form-urlencode a string byte by byte over its UTF-8 encoding. -/
def formUrlEncode (s : String) : String :=
  String.join ((s.toUTF8.toList.map (fun b => formUrlEncodeByte b.toNat)))

/-- buildNextImageOptimizerUrl: new URL with path /_next/image against
window.location.origin, with searchParams url (the remote URL), w 1080
and q 90, serialized back to a string. -/
def buildNextImageOptimizerUrl (env : Env) (remoteUrl : String) : String :=
  env.origin ++ "/_next/image?url=" ++ formUrlEncode remoteUrl ++ "&w=1080&q=90"

/-- tryFetchBlob: fetch the URL with CORS mode; a thrown fetch, a
non-success response, or a throwing blob() call all yield null (none). -/
def tryFetchBlob (env : Env) (url : String) : Option Blob × List Event :=
  (match env.fetch url with
    | FetchSpec.throws _ => none
    | FetchSpec.resp ok blob =>
      if ok then
        match blob with
        | Except.ok b => some b
        | Except.error _ => none
      else none,
   [Event.fetchCall url])

/-- ASCII lowercasing of one character; the JavaScript toLowerCase call
agrees with this on the pure-ASCII strings this code compares. -/
def jsToLowerChar (c : Char) : Char :=
  if 65 ≤ c.toNat ∧ c.toNat ≤ 90 then Char.ofNat (c.toNat + 32) else c

/-- String lowercasing, character by character. -/
def jsToLower (s : String) : String := String.mk (s.toList.map jsToLowerChar)

/-- Whitespace as stripped by the JavaScript trim call, restricted to the
ASCII whitespace characters. -/
def isJsSpace (c : Char) : Bool :=
  c = ' ' ∨ c = '\t' ∨ c = '\n' ∨ c = '\r'

/-- Strip leading and trailing whitespace. -/
def jsTrim (s : String) : String :=
  String.mk (((s.toList.dropWhile isJsSpace).reverse.dropWhile isJsSpace).reverse)

/-- The first element of splitting a string at semicolons: everything up
to the first semicolon, or the whole string when there is none. -/
def splitFirstSemi (s : String) : String :=
  String.mk (s.toList.takeWhile (fun c => c ≠ ';'))

/-- Whether p is a prefix of s, by character lists. -/
def strStartsWith (s p : String) : Bool :=
  s.toList.take p.toList.length == p.toList

/-- Whether p is a suffix of s, by character lists. -/
def strEndsWith (s p : String) : Bool :=
  s.toList.drop (s.toList.length - p.toList.length) == p.toList

/-- extensionFromContentType: lowercase, drop MIME parameters after the
first semicolon, trim, then map the four recognized image types to their
extensions and everything else to the empty string. -/
def extensionFromContentType (contentType : String) : String :=
  let t := jsTrim (splitFirstSemi (jsToLower contentType))
  if t = "image/png" then ".png"
  else if t = "image/jpeg" then ".jpg"
  else if t = "image/webp" then ".webp"
  else if t = "image/gif" then ".gif"
  else ""

/-- fileFromBlob: derive the safe filename (the trimmed override when its
trim is non-empty, else shared-image plus the inferred extension), keep
the declared content type or default to application/octet-stream, stamp
the current time, and annotate with the fetch path. -/
def fileFromBlob (blob : Blob) (filename : Option String)
    (fetchedVia : FetchedVia) (now : Nat) : File :=
  let contentType := blob.type
  let inferredExtension := extensionFromContentType contentType
  let safeName :=
    match filename with
    | some f => if jsTrim f = "" then "shared-image" ++ inferredExtension else jsTrim f
    | none => "shared-image" ++ inferredExtension
  { name := safeName
    type := if contentType = "" then "application/octet-stream" else contentType
    lastModified := now
    data := blob.data
    fetchedVia := some fetchedVia }

/-- The Error thrown by fileFromUrl when both fetch paths fail. Its name
property is Error; its message is not observed by any caller. -/
def fetchFailedError : JsValue := JsValue.objWithName "Error"

/-- fileFromUrl: try the direct fetch; if it yields nothing and the
optimizer fallback is allowed and window exists, try the optimizer URL;
if neither yields a blob, throw (Except.error). -/
def fileFromUrl (env : Env) (imageUrl : String) (filename : Option String)
    (allowNextImageOptimizerFallback : Bool) : Except JsValue File × List Event :=
  let d := tryFetchBlob env imageUrl
  match d.fst with
  | some b => (Except.ok (fileFromBlob b filename FetchedVia.direct env.now), d.snd)
  | none =>
    if allowNextImageOptimizerFallback && env.hasWindow then
      let v := tryFetchBlob env (buildNextImageOptimizerUrl env imageUrl)
      match v.fst with
      | some b =>
        (Except.ok (fileFromBlob b filename FetchedVia.next_image_optimizer env.now),
         d.snd ++ v.snd)
      | none => (Except.error fetchFailedError, d.snd ++ v.snd)
    else (Except.error fetchFailedError, d.snd)

/-- inferImageMime: the declared type when non-empty and starting with
image/, else by filename extension, else null. -/
def inferImageMime (file : File) : Option String :=
  if file.type ≠ "" && strStartsWith file.type "image/" then some file.type
  else
    let n := jsToLower file.name
    if strEndsWith n ".png" then some "image/png"
    else if strEndsWith n ".jpg" || strEndsWith n ".jpeg" then some "image/jpeg"
    else if strEndsWith n ".webp" then some "image/webp"
    else if strEndsWith n ".gif" then some "image/gif"
    else none

/-- tryWriteImageToClipboard: return false at once when clipboard or its
write function or the ClipboardItem constructor is absent; otherwise
slice the file to a blob of the inferred MIME type (default image/png),
construct a ClipboardItem and write it; any thrown exception from the
constructor or the write becomes a false return. -/
def tryWriteImageToClipboard (env : Env) (file : File) : Bool × List Event :=
  if !(env.clipboardPresent && env.clipboardWriteIsFunction) then (false, [])
  else if !env.clipboardItemDefined then (false, [])
  else
    let _mime := (inferImageMime file).getD "image/png"
    match env.clipboardItemNew with
    | Except.error _ => (false, [Event.clipboardItemNew])
    | Except.ok _ =>
      match env.clipboardWrite with
      | Except.error _ => (false, [Event.clipboardItemNew, Event.clipboardWriteCall])
      | Except.ok _ => (true, [Event.clipboardItemNew, Event.clipboardWriteCall])

/-- isClipboardWriteSupported: navigator.clipboard exists, its write is a
function, and the ClipboardItem constructor is defined. -/
def isClipboardWriteSupported (env : Env) : Bool :=
  if !env.clipboardPresent || !env.clipboardWriteIsFunction then false
  else env.clipboardItemDefined

/-- tryOpenDeepLink: same-window navigation via location.assign first; if
that throws, window.open in a new context; if that also throws, false. -/
def tryOpenDeepLink (env : Env) (url : String) : Bool × List Event :=
  match env.assign url with
  | Except.ok _ => (true, [Event.assignCall url])
  | Except.error _ =>
    match env.openWin url with
    | Except.ok _ => (true, [Event.assignCall url, Event.openCall url])
    | Except.error _ => (false, [Event.assignCall url, Event.openCall url])

/-- isAbortError: true exactly for an object value whose name property is
the string AbortError. -/
def isAbortError : JsValue → Bool
  | JsValue.objWithName n => n == "AbortError"
  | JsValue.objNoStringName => false
  | JsValue.primitive => false

/-- SharePayload. The kind field is the literal type image in TypeScript;
it is modelled as a string because the code tests it at runtime. -/
structure SharePayload where
  kind : String
  imageUrl : String
  filename : Option String := none
  title : Option String := none
  text : Option String := none
deriving DecidableEq

/-- The target surface of the direct strategy. -/
inductive DirectTarget where
  | story_camera
  | app
deriving DecidableEq

/-- The options object of shareImageToInstagramDirect: the payload fields
without kind, plus the optional preloaded file, target and skipClipboard. -/
structure DirectShareOptions where
  imageUrl : String
  filename : Option String := none
  title : Option String := none
  text : Option String := none
  file : Option File := none
  target : Option DirectTarget := none
  skipClipboard : Option Bool := none

/-- The deep-link URL chosen from the target surface, defaulting to the
story camera. -/
def directDeepLink (target : Option DirectTarget) : String :=
  if target.getD DirectTarget.story_camera = DirectTarget.story_camera then
    "instagram://story-camera"
  else "instagram://app"

/-- Outcome of the clipboard section of the direct strategy: the
clipboardOk flag, the recorded status, the fetchedVia annotation and the
collaborator calls made. -/
structure ClipOutcome where
  ok : Bool
  status : ClipboardStatus
  fetchedVia : Option FetchedVia
  trace : List Event
deriving DecidableEq

/-- The clipboard section of shareImageToInstagramDirect: skipped when
requested; not_supported when capability is absent; otherwise obtain a
file (the preloaded one, else fileFromUrl with the optimizer fallback
enabled) and attempt the clipboard write, recording copied or failed; a
thrown fetch leaves status failed and lets the flow continue. -/
def directClipboardStep (env : Env) (options : DirectShareOptions) : ClipOutcome :=
  if options.skipClipboard.getD false then
    { ok := false, status := ClipboardStatus.skipped, fetchedVia := none, trace := [] }
  else if isClipboardWriteSupported env then
    match options.file with
    | some f =>
      let w := tryWriteImageToClipboard env f
      { ok := w.fst
        status := if w.fst then ClipboardStatus.copied else ClipboardStatus.failed
        fetchedVia := f.fetchedVia
        trace := w.snd }
    | none =>
      let r := fileFromUrl env options.imageUrl options.filename true
      match r.fst with
      | Except.error _ =>
        { ok := false, status := ClipboardStatus.failed, fetchedVia := none, trace := r.snd }
      | Except.ok f =>
        let w := tryWriteImageToClipboard env f
        { ok := w.fst
          status := if w.fst then ClipboardStatus.copied else ClipboardStatus.failed
          fetchedVia := f.fetchedVia
          trace := r.snd ++ w.snd }
  else
    { ok := false, status := ClipboardStatus.not_supported, fetchedVia := none, trace := [] }

/-- shareImageToInstagramDirect: guard on the browser environment, run
the clipboard section, then attempt the deep link; a failed deep link is
not_supported, a successful one yields deep_link_clipboard when the
clipboard copy succeeded and deep_link otherwise, with details recording
the clipboard status, deepLinkOpened and fetchedVia. -/
def shareImageToInstagramDirect (env : Env) (options : DirectShareOptions) :
    ShareResult × List Event :=
  if !(env.hasWindow && env.hasNavigator) then
    (ShareResult.failure "instagram" Reason.not_in_browser none, [])
  else
    let deepLink := directDeepLink options.target
    let clip := directClipboardStep env options
    let opened := tryOpenDeepLink env deepLink
    if !opened.fst then
      (ShareResult.failure "instagram" Reason.not_supported none, clip.trace ++ opened.snd)
    else
      (ShareResult.success "instagram"
        (if clip.ok then Method.deep_link_clipboard else Method.deep_link)
        (some { clipboard := clip.status
                deepLinkOpened := some opened.fst
                fetchedVia := clip.fetchedVia }),
       clip.trace ++ opened.snd)

/-- The canShare probe of the web-share strategy: absent or undefined
canShare makes no call and does not bail; a throwing call is caught and
ignored; only a call returning exactly false bails out. Returns the bail
flag and the calls made. -/
def canShareStep (env : Env) : Bool × List Event :=
  match env.canShare with
  | CanShareSpec.absent => (false, [])
  | CanShareSpec.undef => (false, [])
  | CanShareSpec.throws _ => (false, [Event.canShareCall])
  | CanShareSpec.returns v => (v == false, [Event.canShareCall])

/-- shareImageViaWebShare: browser guard, share-capability guard, kind
guard, fetch without the optimizer fallback, optional canShare probe,
then the native share call with AbortError mapped to user_cancelled and
every other thrown value to unknown. -/
def shareImageViaWebShare (env : Env) (payload : SharePayload) :
    ShareResult × List Event :=
  if !(env.hasWindow && env.hasNavigator) then
    (ShareResult.failure "instagram" Reason.not_in_browser none, [])
  else if !(env.shareInNavigator && env.shareIsFunction) then
    (ShareResult.failure "instagram" Reason.not_supported none, [])
  else if payload.kind ≠ "image" then
    (ShareResult.failure "instagram" Reason.unknown none, [])
  else
    let r := fileFromUrl env payload.imageUrl payload.filename false
    match r.fst with
    | Except.error e =>
      (ShareResult.failure "instagram" Reason.fetch_failed (some e), r.snd)
    | Except.ok _file =>
      let c := canShareStep env
      if c.fst then
        (ShareResult.failure "instagram" Reason.not_supported none, r.snd ++ c.snd)
      else
        match env.nativeShare with
        | Except.ok _ =>
          (ShareResult.success "instagram" Method.web_share none,
           r.snd ++ c.snd ++ [Event.nativeShareCall])
        | Except.error e =>
          if isAbortError e then
            (ShareResult.failure "instagram" Reason.user_cancelled (some e),
             r.snd ++ c.snd ++ [Event.nativeShareCall])
          else
            (ShareResult.failure "instagram" Reason.unknown (some e),
             r.snd ++ c.snd ++ [Event.nativeShareCall])

/-- The provider identifier type: exactly one provider today. -/
inductive ShareProviderId where
  | instagram
deriving DecidableEq

/-- ShareOptions of the share entry point. -/
structure ShareOptions where
  provider : ShareProviderId
  payload : SharePayload

/-- The static provider registry: instagram routes to the web-share
strategy. -/
def providers : ShareProviderId → Env → SharePayload → ShareResult × List Event
  | ShareProviderId.instagram => shareImageViaWebShare

/-- share: look up the strategy for the provider and invoke it. -/
def share (env : Env) (options : ShareOptions) : ShareResult × List Event :=
  providers options.provider env options.payload

/-- shareImageToInstagram: convenience wrapper fixing the provider and
the image kind. -/
def shareImageToInstagram (env : Env) (imageUrl : String)
    (filename title text : Option String) : ShareResult × List Event :=
  share env
    { provider := ShareProviderId.instagram
      payload :=
        { kind := "image", imageUrl := imageUrl, filename := filename
          title := title, text := text } }

/-- prepareShareImageFile: public prefetch helper, fileFromUrl with the
optimizer fallback enabled. -/
def prepareShareImageFile (env : Env) (imageUrl : String)
    (filename : Option String) : Except JsValue File × List Event :=
  fileFromUrl env imageUrl filename true

/-- A concrete browser environment in which every capability is present
and every collaborator call succeeds; witnesses adjust single fields. -/
def baseEnv : Env where
  hasWindow := true
  hasNavigator := true
  origin := "https://app.example"
  now := 0
  shareInNavigator := true
  shareIsFunction := true
  canShare := CanShareSpec.absent
  nativeShare := Except.ok ()
  fetch := fun _ => FetchSpec.resp true (Except.ok { type := "image/png", data := [] })
  clipboardPresent := true
  clipboardWriteIsFunction := true
  clipboardItemDefined := true
  clipboardItemNew := Except.ok ()
  clipboardWrite := Except.ok ()
  assign := fun _ => Except.ok ()
  openWin := fun _ => Except.ok ()

/-- Concrete direct-share options used by witnesses. -/
def baseDirectOptions : DirectShareOptions where
  imageUrl := "https://cdn.example/a.png"

/-- Concrete payload used by witnesses. -/
def basePayload : SharePayload where
  kind := "image"
  imageUrl := "https://cdn.example/a.png"

/-- C1: when clipboard-write capability is absent, skipClipboard is false
and the deep-link open succeeds, the direct strategy succeeds with method
deep_link and details recording clipboard not_supported, deepLinkOpened
true and no fetchedVia: the missing clipboard alone never fails it. -/
theorem c1_direct_clipboard_unsupported_still_succeeds
    (env : Env) (options : DirectShareOptions)
    (hw : env.hasWindow = true) (hn : env.hasNavigator = true)
    (hclip : isClipboardWriteSupported env = false)
    (hskip : options.skipClipboard.getD false = false)
    (hopen : (tryOpenDeepLink env (directDeepLink options.target)).fst = true) :
    (shareImageToInstagramDirect env options).fst =
      ShareResult.success "instagram" Method.deep_link
        (some { clipboard := ClipboardStatus.not_supported
                deepLinkOpened := some true
                fetchedVia := none }) := by
  simp [shareImageToInstagramDirect, directClipboardStep, hw, hn, hclip, hskip, hopen]

/-- C1 witness: the concrete environment without a ClipboardItem
constructor satisfies every hypothesis and yields the stated success. -/
theorem c1_witness :
    (shareImageToInstagramDirect { baseEnv with clipboardItemDefined := false }
        baseDirectOptions).fst =
      ShareResult.success "instagram" Method.deep_link
        (some { clipboard := ClipboardStatus.not_supported
                deepLinkOpened := some true
                fetchedVia := none }) :=
  c1_direct_clipboard_unsupported_still_succeeds
    { baseEnv with clipboardItemDefined := false } baseDirectOptions
    rfl rfl rfl rfl rfl

/-- C2: in a browser environment, when both the same-window navigation
and the new-context open throw, the direct strategy fails with reason
not_supported, whatever the clipboard configuration and outcome. -/
theorem c2_direct_deeplink_failure_not_supported
    (env : Env) (options : DirectShareOptions)
    (hw : env.hasWindow = true) (hn : env.hasNavigator = true)
    (ha : exceptThrew (env.assign (directDeepLink options.target)) = true)
    (ho : exceptThrew (env.openWin (directDeepLink options.target)) = true) :
    (shareImageToInstagramDirect env options).fst =
      ShareResult.failure "instagram" Reason.not_supported none := by
  have hopen : (tryOpenDeepLink env (directDeepLink options.target)).fst = false := by
    unfold tryOpenDeepLink
    cases hx : env.assign (directDeepLink options.target) with
    | ok u => simp [exceptThrew, hx] at ha
    | error e =>
      cases hy : env.openWin (directDeepLink options.target) with
      | ok u => simp [exceptThrew, hy] at ho
      | error f => simp
  simp [shareImageToInstagramDirect, hw, hn, hopen]

/-- C2 witness: with both navigation calls throwing, the direct strategy
fails with not_supported even though the clipboard copy succeeds. -/
theorem c2_witness :
    (shareImageToInstagramDirect
        { baseEnv with
            assign := fun _ => Except.error JsValue.primitive
            openWin := fun _ => Except.error JsValue.primitive }
        baseDirectOptions).fst =
      ShareResult.failure "instagram" Reason.not_supported none :=
  c2_direct_deeplink_failure_not_supported
    { baseEnv with
        assign := fun _ => Except.error JsValue.primitive
        openWin := fun _ => Except.error JsValue.primitive }
    baseDirectOptions rfl rfl rfl rfl

/-- C3: for an image payload in a browser whose navigator.share is absent
or not a function, the web-share strategy fails with not_supported and
performs no collaborator call at all, in particular no fetch. -/
theorem c3_webshare_missing_share_no_fetch
    (env : Env) (payload : SharePayload)
    (hk : payload.kind = "image")
    (hw : env.hasWindow = true) (hn : env.hasNavigator = true)
    (hs : env.shareInNavigator = false ∨ env.shareIsFunction = false) :
    (shareImageViaWebShare env payload).fst =
        ShareResult.failure "instagram" Reason.not_supported none
      ∧ (shareImageViaWebShare env payload).snd = [] := by
  have hss : (env.shareInNavigator && env.shareIsFunction) = false := by
    cases hs with
    | inl h => simp [h]
    | inr h => simp [h]
  simp [shareImageViaWebShare, hw, hn, hss]

/-- C3 witness: the concrete environment lacking the share function
returns not_supported with an empty call trace. -/
theorem c3_witness :
    (shareImageViaWebShare { baseEnv with shareIsFunction := false } basePayload).fst =
        ShareResult.failure "instagram" Reason.not_supported none
      ∧ (shareImageViaWebShare { baseEnv with shareIsFunction := false } basePayload).snd = [] :=
  c3_webshare_missing_share_no_fetch { baseEnv with shareIsFunction := false }
    basePayload rfl rfl rfl (Or.inr rfl)

/-- C8: the deep-link opener returns true exactly when the same-window
navigation or the fallback open does not throw, and its call trace shows
the navigation attempt first with the fallback attempted only when the
navigation threw; being a total function it never throws itself. -/
theorem c8_tryOpenDeepLink_behaviour (env : Env) (url : String) :
    (tryOpenDeepLink env url).fst
        = (!exceptThrew (env.assign url) || !exceptThrew (env.openWin url))
  ∧ (tryOpenDeepLink env url).snd
        = (if exceptThrew (env.assign url) then
             [Event.assignCall url, Event.openCall url]
           else [Event.assignCall url]) := by
  unfold tryOpenDeepLink exceptThrew
  cases env.assign url <;> cases env.openWin url <;> simp

/-- C4: with the optimizer fallback permitted and window present, a
failed direct fetch followed by a successful fetch of the optimizer URL
yields a file tagged next_image_optimizer, and two failed fetches yield
the fetch-failure error. -/
theorem c4_fileFromUrl_optimizer_fallback
    (env : Env) (imageUrl : String) (filename : Option String)
    (hw : env.hasWindow = true)
    (hdirect : (tryFetchBlob env imageUrl).fst = none) :
    (∀ b, (tryFetchBlob env (buildNextImageOptimizerUrl env imageUrl)).fst = some b →
        (fileFromUrl env imageUrl filename true).fst
            = Except.ok (fileFromBlob b filename FetchedVia.next_image_optimizer env.now)
          ∧ (fileFromBlob b filename FetchedVia.next_image_optimizer env.now).fetchedVia
            = some FetchedVia.next_image_optimizer)
  ∧ ((tryFetchBlob env (buildNextImageOptimizerUrl env imageUrl)).fst = none →
      (fileFromUrl env imageUrl filename true).fst = Except.error fetchFailedError) := by
  constructor
  · intro b hb
    constructor
    · simp [fileFromUrl, hdirect, hw, hb]
    · rfl
  · intro hb
    simp [fileFromUrl, hdirect, hw, hb]

/-- The blob served by the optimizer endpoint in the C4 witness. -/
def c4Blob : Blob := { type := "image/png", data := [] }

/-- Environment for the C4 witness: the direct URL a throws on fetch and
every other URL, in particular the optimizer URL, serves c4Blob. -/
def c4Env : Env :=
  { baseEnv with
      fetch := fun u =>
        if u = "a" then FetchSpec.throws JsValue.primitive
        else FetchSpec.resp true (Except.ok c4Blob) }

/-- C4 witness: in c4Env the fallback supplies the prepared file. -/
theorem c4_witness :
    (fileFromUrl c4Env "a" none true).fst
      = Except.ok (fileFromBlob c4Blob none FetchedVia.next_image_optimizer c4Env.now) :=
  ((c4_fileFromUrl_optimizer_fallback c4Env "a" none rfl rfl).1 c4Blob rfl).1

/-- C9: the web-share strategy fetches with the optimizer fallback
disabled: when the direct fetch of the payload URL fails it returns
fetch_failed, and its whole call trace is the single direct fetch, so the
optimizer URL is never requested. -/
theorem c9_webshare_no_optimizer_fallback
    (env : Env) (payload : SharePayload)
    (hw : env.hasWindow = true) (hn : env.hasNavigator = true)
    (hs : env.shareInNavigator = true) (hf : env.shareIsFunction = true)
    (hk : payload.kind = "image")
    (hdirect : (tryFetchBlob env payload.imageUrl).fst = none) :
    (shareImageViaWebShare env payload).fst =
        ShareResult.failure "instagram" Reason.fetch_failed (some fetchFailedError)
      ∧ (shareImageViaWebShare env payload).snd = [Event.fetchCall payload.imageUrl] := by
  have hsnd : (tryFetchBlob env payload.imageUrl).snd = [Event.fetchCall payload.imageUrl] := rfl
  simp [shareImageViaWebShare, fileFromUrl, hw, hn, hs, hf, hk, hdirect, hsnd]

/-- Environment for the C9 witness: every fetch throws. -/
def c9Env : Env := { baseEnv with fetch := fun _ => FetchSpec.throws JsValue.primitive }

/-- C9 witness: with all fetches throwing, the web-share strategy fails
with fetch_failed after exactly one direct fetch attempt. -/
theorem c9_witness :
    (shareImageViaWebShare c9Env basePayload).fst =
        ShareResult.failure "instagram" Reason.fetch_failed (some fetchFailedError)
      ∧ (shareImageViaWebShare c9Env basePayload).snd
        = [Event.fetchCall basePayload.imageUrl] :=
  c9_webshare_no_optimizer_fallback c9Env basePayload rfl rfl rfl rfl rfl rfl

/-- C10: with skipClipboard true in a browser the direct strategy
performs no fetch and no clipboard write, and when the deep-link open
succeeds it returns success with method deep_link (never
deep_link_clipboard), clipboard skipped and no fetchedVia. -/
theorem c10_direct_skip_clipboard
    (env : Env) (options : DirectShareOptions)
    (hw : env.hasWindow = true) (hn : env.hasNavigator = true)
    (hskip : options.skipClipboard = some true) :
    (∀ u, Event.fetchCall u ∉ (shareImageToInstagramDirect env options).snd)
  ∧ Event.clipboardWriteCall ∉ (shareImageToInstagramDirect env options).snd
  ∧ ((tryOpenDeepLink env (directDeepLink options.target)).fst = true →
      (shareImageToInstagramDirect env options).fst =
        ShareResult.success "instagram" Method.deep_link
          (some { clipboard := ClipboardStatus.skipped
                  deepLinkOpened := some true
                  fetchedVia := none })) := by
  have hclip : directClipboardStep env options
      = { ok := false, status := ClipboardStatus.skipped, fetchedVia := none, trace := [] } := by
    simp [directClipboardStep, hskip]
  cases ha : env.assign (directDeepLink options.target) with
  | ok u =>
    refine ⟨fun v => ?_, ?_, fun hopen => ?_⟩ <;>
      simp [shareImageToInstagramDirect, hw, hn, hclip, tryOpenDeepLink, ha]
  | error x =>
    cases ho : env.openWin (directDeepLink options.target) with
    | ok u =>
      refine ⟨fun v => ?_, ?_, fun hopen => ?_⟩ <;>
        simp [shareImageToInstagramDirect, hw, hn, hclip, tryOpenDeepLink, ha, ho]
    | error y =>
      refine ⟨fun v => ?_, ?_, fun hopen => ?_⟩
      · simp [shareImageToInstagramDirect, hw, hn, hclip, tryOpenDeepLink, ha, ho]
      · simp [shareImageToInstagramDirect, hw, hn, hclip, tryOpenDeepLink, ha, ho]
      · rw [tryOpenDeepLink] at hopen
        simp [ha, ho] at hopen

/-- C10 witness: concrete skip-clipboard run succeeding via deep_link. -/
theorem c10_witness :
    (shareImageToInstagramDirect baseEnv
        { baseDirectOptions with skipClipboard := some true }).fst =
      ShareResult.success "instagram" Method.deep_link
        (some { clipboard := ClipboardStatus.skipped
                deepLinkOpened := some true
                fetchedVia := none }) :=
  (c10_direct_skip_clipboard baseEnv { baseDirectOptions with skipClipboard := some true }
    rfl rfl rfl).2.2 rfl

/-- C5: when the native share call throws, an object error whose name is
exactly AbortError maps to user_cancelled and every other thrown value
(other names, objects without a string name, non-objects) maps to
unknown, the error being attached in both cases. -/
theorem c5_webshare_error_name_mapping
    (env : Env) (payload : SharePayload)
    (hw : env.hasWindow = true) (hn : env.hasNavigator = true)
    (hs : env.shareInNavigator = true) (hf : env.shareIsFunction = true)
    (hk : payload.kind = "image")
    (file : File)
    (hfetch : (fileFromUrl env payload.imageUrl payload.filename false).fst
      = Except.ok file)
    (hcs : (canShareStep env).fst = false)
    (e : JsValue)
    (hshare : env.nativeShare = Except.error e) :
    (shareImageViaWebShare env payload).fst =
      ShareResult.failure "instagram"
        (if e = JsValue.objWithName "AbortError" then Reason.user_cancelled
         else Reason.unknown)
        (some e) := by
  cases e with
  | objWithName m =>
    by_cases hm : m = "AbortError"
    · simp [shareImageViaWebShare, hw, hn, hs, hf, hk, hfetch, hcs, hshare,
        isAbortError, hm]
    · simp [shareImageViaWebShare, hw, hn, hs, hf, hk, hfetch, hcs, hshare,
        isAbortError, hm]
  | objNoStringName =>
    simp [shareImageViaWebShare, hw, hn, hs, hf, hk, hfetch, hcs, hshare, isAbortError]
  | primitive =>
    simp [shareImageViaWebShare, hw, hn, hs, hf, hk, hfetch, hcs, hshare, isAbortError]

/-- Environment for the C5 witness: the native share call throws an
object named AbortError. -/
def c5Env : Env :=
  { baseEnv with nativeShare := Except.error (JsValue.objWithName "AbortError") }

/-- C5 witness: the AbortError throw maps to user_cancelled with the
error attached. -/
theorem c5_witness :
    (shareImageViaWebShare c5Env basePayload).fst =
      ShareResult.failure "instagram" Reason.user_cancelled
        (some (JsValue.objWithName "AbortError")) := by
  have h := c5_webshare_error_name_mapping c5Env basePayload rfl rfl rfl rfl rfl
    (fileFromBlob { type := "image/png", data := [] } none FetchedVia.direct 0)
    rfl rfl (JsValue.objWithName "AbortError") rfl
  simpa using h

/-- Every ShareResult carries one of the three success methods or one of
the six enumerated failure reasons. -/
def enumeratedResult : ShareResult → Prop
  | ShareResult.success _ m _ =>
      m = Method.web_share ∨ m = Method.deep_link ∨ m = Method.deep_link_clipboard
  | ShareResult.failure _ r _ =>
      r = Reason.not_in_browser ∨ r = Reason.not_supported
        ∨ r = Reason.clipboard_not_supported ∨ r = Reason.fetch_failed
        ∨ r = Reason.user_cancelled ∨ r = Reason.unknown

/-- Any ShareResult value at all satisfies the enumeration. -/
theorem enumeratedResult_total : ∀ r, enumeratedResult r := by
  intro r
  cases r with
  | success p m d => cases m <;> simp [enumeratedResult]
  | failure p rr e => cases rr <;> simp [enumeratedResult]

/-- C6: under arbitrary throwing behaviour of the collaborators encoded
in the environment, both strategies are total functions into ShareResult
with enumerated reasons (so no exception escapes to the caller, since a
thrown collaborator exception is just another Env outcome), and the
clipboard writer turns a throwing ClipboardItem constructor or clipboard
write into a false return. -/
theorem c6_no_exception_escapes (env : Env) (payload : SharePayload)
    (options : DirectShareOptions) (file : File) :
    enumeratedResult (shareImageViaWebShare env payload).fst
  ∧ enumeratedResult (shareImageToInstagramDirect env options).fst
  ∧ ((exceptThrew env.clipboardItemNew = true ∨ exceptThrew env.clipboardWrite = true) →
      (tryWriteImageToClipboard env file).fst = false) := by
  refine ⟨enumeratedResult_total _, enumeratedResult_total _, fun h => ?_⟩
  cases hcp : env.clipboardPresent <;> cases hcw : env.clipboardWriteIsFunction <;>
    cases hci : env.clipboardItemDefined <;>
    simp [tryWriteImageToClipboard, hcp, hcw, hci]
  cases hn1 : env.clipboardItemNew with
  | error x => simp
  | ok u =>
    cases hn2 : env.clipboardWrite with
    | error y => simp
    | ok v =>
      rcases h with h | h
      · rw [hn1] at h; simp [exceptThrew] at h
      · rw [hn2] at h; simp [exceptThrew] at h

/-- C6 witness: with a throwing clipboard write, the clipboard writer
returns false instead of propagating. -/
theorem c6_witness :
    (tryWriteImageToClipboard
        { baseEnv with clipboardWrite := Except.error JsValue.primitive }
        (fileFromBlob { type := "image/png", data := [] } none FetchedVia.direct 0)).fst
      = false :=
  (c6_no_exception_escapes
      { baseEnv with clipboardWrite := Except.error JsValue.primitive }
      basePayload baseDirectOptions
      (fileFromBlob { type := "image/png", data := [] } none FetchedVia.direct 0)).2.2
    (Or.inr rfl)

/-- C7: the safe filename is a deterministic function of the content type
and optional filename: the trimmed filename when its trim is non-empty,
otherwise shared-image plus the extension mapped from the content type,
where the four recognized image types map to .png, .jpg, .webp, .gif and
every other content type maps to the empty extension; in particular an
image/png blob with no filename is named shared-image.png. Determinism is
inherent: fileFromBlob is a pure function of its arguments. -/
theorem c7_filename_derivation :
    (∀ (blob : Blob) (filename : Option String) (fv : FetchedVia) (now : Nat),
        (fileFromBlob blob filename fv now).name =
          match filename with
          | some f =>
            if jsTrim f = "" then "shared-image" ++ extensionFromContentType blob.type
            else jsTrim f
          | none => "shared-image" ++ extensionFromContentType blob.type)
  ∧ extensionFromContentType "image/png" = ".png"
  ∧ extensionFromContentType "image/jpeg" = ".jpg"
  ∧ extensionFromContentType "image/webp" = ".webp"
  ∧ extensionFromContentType "image/gif" = ".gif"
  ∧ (∀ ct : String,
      jsTrim (splitFirstSemi (jsToLower ct))
          ∉ (["image/png", "image/jpeg", "image/webp", "image/gif"] : List String) →
      extensionFromContentType ct = "")
  ∧ (∀ (data : List Nat) (fv : FetchedVia) (now : Nat),
      (fileFromBlob { type := "image/png", data := data } none fv now).name
        = "shared-image.png") := by
  refine ⟨?_, rfl, rfl, rfl, rfl, ?_, ?_⟩
  · intro blob filename fv now
    cases filename <;> rfl
  · intro ct hct
    simp only [List.mem_cons, List.not_mem_nil, or_false, not_or] at hct
    obtain ⟨h1, h2, h3, h4⟩ := hct
    simp [extensionFromContentType, h1, h2, h3, h4]
  · intro data fv now
    rfl

/-- C7 witness: an unrecognized content type yields no extension, via the
general mapping applied at text/plain. -/
theorem c7_witness : extensionFromContentType "text/plain" = "" :=
  c7_filename_derivation.2.2.2.2.2.1 "text/plain" (by decide)

end SocialSharing
